import Mathlib

/-!
Shallow embedding of the AmbientSounds player (src/AudioController.js,
src/SettingsController.js, src/BackgroundController.js) and proofs of the
specified properties.

Modelling conventions:
* JS numbers are modelled as rationals.
* The asynchronous methods run on a single logical thread; each operation is
  modelled as a state transformer executed to completion.  Awaiting the
  already-resolved preload promise is the identity in this sequential model.
* External effects are supplied by an explicit environment: whether the
  platform audio context can be constructed, and the outcome of fetching and
  decoding each URL.
* The Web Audio objects created and destroyed by the engine are tracked by an
  event trace (voice creation, start, stop, disconnect) so that teardown and
  liveness of voices can be stated.
* Fallible methods return `Except` values: a thrown JS error is `Except.error`.
-/

namespace AudioController

/-- An entry of the static sound catalog: a display name and a fetchable URL. -/
structure SoundSource where
  name : String
  url : String
deriving DecidableEq, Repr

/-- The fixed sound catalog from the top of src/AudioController.js. -/
def soundSources : List SoundSource :=
  [ { name := "Rain", url := "/audio/rain.mp3" },
    { name := "Ocean Waves", url := "/audio/ocean_waves.mp3" },
    { name := "Forest", url := "/audio/forest_sounds.mp3" },
    { name := "White Noise", url := "/audio/white_noise.mp3" } ]

/-- The method getSoundNames of the controller. -/
def soundNames : List String := soundSources.map (fun s => s.name)

/-- Trace events recording what the engine does to buffer-source voices.
A voice is created (createBufferSource plus connect to the gain stage),
started (start 0), stopped (stop 0) and disconnected (disconnect). -/
inductive AudioEvent
  | createVoice (id : Nat) (sound : String)
  | startVoice (id : Nat)
  | stopVoice (id : Nat)
  | disconnectVoice (id : Nat)
deriving DecidableEq, Repr

/-- Errors thrown by the engine, one per throw site in the source. -/
inductive AudioError
  | audioSystemUnavailable
  | fetchFailed (sound : String)
  | decodeFailed
deriving DecidableEq, Repr

/-- Outcome of fetching and decoding one URL, supplied by the environment. -/
inductive FetchOutcome
  | ok
  | httpError
  | decodeError
deriving DecidableEq, Repr

/-- The external platform: whether the AudioContext constructor succeeds and
what each fetch/decode of a URL yields. -/
structure AudioEnv where
  ctxOk : Bool
  fetch : String → FetchOutcome

/-- The mutable instance fields of class AudioController.  The decoded
buffers are opaque, so the cache is modelled by its key set, in insertion
order.  The gain stage is `some g` when it exists, holding its gain value. -/
structure AudioState where
  audioContext : Bool
  soundBuffers : List String
  currentSourceNode : Option Nat
  isPlaying : Bool
  selectedSound : Option String
  isLoading : Bool
  preloadStarted : Bool
  gainNode : Option ℚ
  volume : ℚ
  nextVoiceId : Nat
  events : List AudioEvent

/-- The constructor of AudioController. -/
def initial : AudioState :=
  { audioContext := false
    soundBuffers := []
    currentSourceNode := none
    isPlaying := false
    selectedSound := none
    isLoading := false
    preloadStarted := false
    gainNode := none
    volume := 3 / 4
    nextVoiceId := 0
    events := [] }

/-- The body of loadSound once the context check has passed (the source
checks the cache, sets isLoading, fetches, decodes, caches, and resets
isLoading on both the success and the error path before rethrowing). -/
def loadSoundCore (env : AudioEnv) (s : AudioState) (soundName soundUrl : String) :
    AudioState × Except AudioError Unit :=
  if s.soundBuffers.contains soundName then (s, Except.ok ())
  else
    let s₁ := { s with isLoading := true }
    match env.fetch soundUrl with
    | FetchOutcome.httpError =>
        ({ s₁ with isLoading := false }, Except.error (AudioError.fetchFailed soundName))
    | FetchOutcome.decodeError =>
        ({ s₁ with isLoading := false }, Except.error AudioError.decodeFailed)
    | FetchOutcome.ok =>
        ({ s₁ with soundBuffers := s₁.soundBuffers ++ [soundName], isLoading := false },
         Except.ok ())

/-- The body of preloadAllSounds once the context exists: every catalog entry
is loaded, an individual failure is swallowed (mapped to null), and the batch
promise is recorded.  The concurrent batch is sequentialised, which yields the
same cache and flags on this single logical thread. -/
def preloadAllSoundsCore (env : AudioEnv) (s : AudioState) : AudioState :=
  let s₁ := soundSources.foldl (fun acc src => (loadSoundCore env acc src.name src.url).1) s
  { s₁ with preloadStarted := true }

/-- Method init: a no-op when the context exists; otherwise it constructs the
context and the gain stage (initialised to the stored volume), then preloads
every catalog entry.  When the context constructor throws, nothing has been
assigned and the failure is rethrown as the audio-system-unavailable error. -/
def init (env : AudioEnv) (s : AudioState) : AudioState × Except AudioError Unit :=
  if s.audioContext then (s, Except.ok ())
  else if env.ctxOk then
    let s₁ := { s with audioContext := true, gainNode := some s.volume }
    (preloadAllSoundsCore env s₁, Except.ok ())
  else (s, Except.error AudioError.audioSystemUnavailable)

/-- Method loadSound: attempts init when the context is missing (propagating
an init failure), then runs the core load.  The source line that throws when
the context is still missing after a resolved init is unreachable, because a
resolved init always has constructed the context. -/
def loadSound (env : AudioEnv) (s : AudioState) (soundName soundUrl : String) :
    AudioState × Except AudioError Unit :=
  if s.audioContext then loadSoundCore env s soundName soundUrl
  else
    match init env s with
    | (s₁, Except.ok _) => loadSoundCore env s₁ soundName soundUrl
    | (s₁, Except.error e) => (s₁, Except.error e)

/-- Method preloadAllSounds as callable from outside: attempts init first when
the context is missing (a successful init has itself already run the preload;
the rerun then only takes cache hits, as in the source). -/
def preloadAllSounds (env : AudioEnv) (s : AudioState) :
    AudioState × Except AudioError Unit :=
  if s.audioContext then (preloadAllSoundsCore env s, Except.ok ())
  else
    match init env s with
    | (s₁, Except.ok _) => (preloadAllSoundsCore env s₁, Except.ok ())
    | (s₁, Except.error e) => (s₁, Except.error e)

/-- Method pause: when a voice is current and playing, it is stopped and
disconnected, the reference is cleared and isPlaying is reset; otherwise a
no-op.  The selection is deliberately kept. -/
def pause (s : AudioState) : AudioState :=
  match s.currentSourceNode with
  | some id =>
      if s.isPlaying then
        { s with
            events := s.events ++ [AudioEvent.stopVoice id, AudioEvent.disconnectVoice id]
            currentSourceNode := none
            isPlaying := false }
      else s
  | none => s

/-- Method stop, an alias for pause in the source. -/
def stop (s : AudioState) : AudioState := pause s

/-- The body of play once the context exists.  Awaiting the in-flight preload
batch is the identity here (sequential model).  The buffer is resolved from
the cache, else loaded on demand when the name is in the catalog; an unknown
name or a failed load logs and returns.  An active voice is torn down via
stop before the new voice is created, set to loop, connected to the gain
stage and started immediately. -/
def playCore (env : AudioEnv) (s : AudioState) (soundName : String) :
    AudioState × Except AudioError Unit :=
  let startVoice (s₂ : AudioState) : AudioState × Except AudioError Unit :=
    let s₃ := if s₂.currentSourceNode.isSome then stop s₂ else s₂
    let id := s₃.nextVoiceId
    ({ s₃ with
        currentSourceNode := some id
        nextVoiceId := id + 1
        events := s₃.events ++ [AudioEvent.createVoice id soundName, AudioEvent.startVoice id]
        isPlaying := true
        selectedSound := some soundName },
     Except.ok ())
  if s.soundBuffers.contains soundName then startVoice s
  else
    match soundSources.find? (fun src => src.name == soundName) with
    | none => (s, Except.ok ())
    | some src =>
        match loadSoundCore env s soundName src.url with
        | (s₁, Except.ok _) => startVoice s₁
        | (s₁, Except.error _) => (s₁, Except.ok ())

/-- Method play: auto-initialises when the context is missing; a rejected init
propagates (the await is not guarded), after which the core play runs. -/
def play (env : AudioEnv) (s : AudioState) (soundName : String) :
    AudioState × Except AudioError Unit :=
  if s.audioContext then playCore env s soundName
  else
    match init env s with
    | (s₁, Except.ok _) => playCore env s₁ soundName
    | (s₁, Except.error e) => (s₁, Except.error e)

/-- Method resume: replays the selected sound from the beginning when not
playing and a selection exists; otherwise a no-op. -/
def resume (env : AudioEnv) (s : AudioState) : AudioState :=
  match s.isPlaying, s.selectedSound with
  | false, some name => (play env s name).1
  | _, _ => s

/-- Method setVolume: clamps to the unit interval, stores the result, and
applies it to the gain stage only when the stage exists. -/
def setVolume (s : AudioState) (volume : ℚ) : AudioState :=
  let clamped := max 0 (min 1 volume)
  { s with
      volume := clamped
      gainNode := match s.gainNode with
        | some _ => some clamped
        | none => none }

/-- Method getVolume. -/
def getVolume (s : AudioState) : ℚ := s.volume

/-- The snapshot object returned by getState, with the field names of the
object literal in the source. -/
structure AudioSnapshot where
  isPlaying : Bool
  currentSound : Option String
  volume : ℚ
  isLoading : Bool

/-- Values a JS property access can yield on the snapshot object; reading an
absent property yields undefined. -/
inductive JsValue
  | undefined
  | bool (b : Bool)
  | num (q : ℚ)
  | str (s : String)
  | null
deriving DecidableEq, Repr

/-- Property access on the snapshot object, keyed exactly by the property
names written in the source object literal. -/
def AudioSnapshot.get (snap : AudioSnapshot) (key : String) : JsValue :=
  if key = "isPlaying" then JsValue.bool snap.isPlaying
  else if key = "currentSound" then
    match snap.currentSound with
    | some n => JsValue.str n
    | none => JsValue.null
  else if key = "volume" then JsValue.num snap.volume
  else if key = "isLoading" then JsValue.bool snap.isLoading
  else JsValue.undefined

/-- Method getState: the snapshot of the four state fields. -/
def getState (s : AudioState) : AudioSnapshot :=
  { isPlaying := s.isPlaying
    currentSound := s.selectedSound
    volume := s.volume
    isLoading := s.isLoading }

/-- Ids of voices created in a trace. -/
def createdIds (events : List AudioEvent) : List Nat :=
  events.filterMap (fun e =>
    match e with
    | AudioEvent.createVoice id _ => some id
    | _ => none)

/-- Number of stop calls a given voice received. -/
def stopCount (events : List AudioEvent) (id : Nat) : Nat :=
  (events.filter (fun e => e = AudioEvent.stopVoice id)).length

/-- Number of disconnect calls a given voice received. -/
def disconnectCount (events : List AudioEvent) (id : Nat) : Nat :=
  (events.filter (fun e => e = AudioEvent.disconnectVoice id)).length

/-- The sound a voice was created for. -/
def voiceSound (events : List AudioEvent) (id : Nat) : Option String :=
  (events.filterMap (fun e =>
    match e with
    | AudioEvent.createVoice i sound => if i = id then some sound else none
    | _ => none)).head?

/-- Voices that have been created and never stopped. -/
def liveIds (events : List AudioEvent) : List Nat :=
  (createdIds events).filter (fun id => stopCount events id = 0)

/-- At every point of the execution (after every prefix of the trace) at most
one voice is live. -/
def atMostOneLiveThroughout (events : List AudioEvent) : Prop :=
  ∀ n : Nat, (liveIds (events.take n)).length ≤ 1

/-- Environment in which the context constructs and every load succeeds. -/
def envAllOk : AudioEnv := { ctxOk := true, fetch := fun _ => FetchOutcome.ok }

/-- Environment in which the context constructor throws. -/
def envNoCtx : AudioEnv := { ctxOk := false, fetch := fun _ => FetchOutcome.ok }

/-- The engine right after a successful init on a fresh instance: context and
gain stage exist and the whole catalog is cached. -/
def readyState : AudioState := (init envAllOk initial).1

/-- The engine after playing two sounds in a row from the ready state. -/
def afterTwoPlays (nameA nameB : String) : AudioState :=
  (play envAllOk (play envAllOk readyState nameA).1 nameB).1

/-- The engine after playing Rain from the ready state and pausing. -/
def rainPausedState : AudioState := pause (play envAllOk readyState "Rain").1

end AudioController



namespace SettingsController

/-- Primitive values held by the flat settings record. -/
inductive SValue
  | bool (b : Bool)
  | num (q : ℚ)
  | str (s : String)
  | null
deriving DecidableEq, Repr

/-- The DEFAULTS record of the validating revision of
src/SettingsController.js. -/
def DEFAULTS : List (String × SValue) :=
  [ ("soundEnabled", SValue.bool true),
    ("selectedSound", SValue.str "Rain"),
    ("volume", SValue.num (3 / 4)),
    ("visualEnabled", SValue.bool true),
    ("reducedMotion", SValue.bool false),
    ("lastUsed", SValue.null),
    ("sessionCount", SValue.num 0) ]

/-- The controller state: the in-memory record, the persisted blob under the
storage key (none when nothing was ever stored), and a count of persistence
writes performed. -/
structure SettingsState where
  settings : List (String × SValue)
  stored : Option (List (String × SValue))
  saveCount : Nat

/-- A fresh controller constructed with empty local storage: loadSettings
falls through to a copy of DEFAULTS. -/
def initialState : SettingsState :=
  { settings := DEFAULTS, stored := none, saveCount := 0 }

/-- Method saveSettings: serialises the in-memory record to storage.  Storage
failures are swallowed in the source; the environment here is an always
writable storage, which the claims under proof presuppose. -/
def saveSettings (s : SettingsState) : SettingsState :=
  { s with stored := some s.settings, saveCount := s.saveCount + 1 }

/-- The volume guard of the validating set: not a number, or below 0, or
above 1. -/
def volumeInvalid (value : SValue) : Bool :=
  match value with
  | SValue.num q => decide (q < 0) || decide (1 < q)
  | _ => true

/-- The selected-sound guard of the validating set: a falsy value or not a
string (the empty string is falsy). -/
def selectedSoundInvalid (value : SValue) : Bool :=
  match value with
  | SValue.str str => str == ""
  | _ => true

/-- Property update on the record; only reached when the key is present. -/
def setKey (l : List (String × SValue)) (key : String) (value : SValue) :
    List (String × SValue) :=
  l.map (fun kv => if kv.1 = key then (key, value) else kv)

/-- The keys of the record, for the `key in this.settings` test. -/
def keysOf (l : List (String × SValue)) : List String := l.map (fun kv => kv.1)

/-- Method set of the validating revision: invalid volume or selected-sound
writes warn and return without mutating; writes to unknown keys warn and
return without mutating; otherwise the record is mutated in memory and
persisted synchronously. -/
def set (s : SettingsState) (key : String) (value : SValue) : SettingsState :=
  if key = "volume" ∧ volumeInvalid value = true then s
  else if key = "selectedSound" ∧ selectedSoundInvalid value = true then s
  else if (keysOf s.settings).contains key then
    saveSettings { s with settings := setKey s.settings key value }
  else s

end SettingsController

namespace BackgroundController

/-- A palette entry: a display name and a CSS color. -/
structure Palette where
  name : String
  color : String
deriving DecidableEq, Repr

/-- The static palette list from the top of src/BackgroundController.js. -/
def calmingColorPalettes : List Palette :=
  [ { name := "Deep Ocean", color := "#003973" },
    { name := "Clear Sky", color := "#75DBCD" },
    { name := "Evening Blue", color := "#2E4057" },
    { name := "Forest Green", color := "#294B29" },
    { name := "Minty Fresh", color := "#A2D9A5" },
    { name := "Olive Grove", color := "#5C5E3A" },
    { name := "Lavender Mist", color := "#E6E6FA" },
    { name := "Deep Purple", color := "#4B0082" },
    { name := "Sandy Beach", color := "#F4A460" },
    { name := "Warm Taupe", color := "#A98F78" },
    { name := "Soft Lilac", color := "#C8A2C8" },
    { name := "Misty Blue", color := "#A0B2C6" } ]

/-- The fallback entry returned for an empty palette list. -/
def defaultPalette : Palette := { name := "Default", color := "#2E4057" }

/-- One painting of the target element: the palette written to the element
style and, when it came from the palette list, the index it was taken at. -/
structure Paint where
  idx : Option Int
  palette : Palette
deriving DecidableEq, Repr

/-- The instance fields of the non-repeating revision of BackgroundController
(the revision with lastPaletteIndex, baseTransitionDuration and setSpeed).
The element style history is kept as the paint trace; the pending timer is
modelled by the delay it was scheduled with. -/
structure BgState where
  palettes : List Palette
  lastPaletteIndex : Int
  baseTransitionDuration : ℚ
  transitionDuration : ℚ
  timeoutId : Option ℚ
  lastCycleTime : Option ℚ
  painted : List Paint

/-- The constructor, parameterised by the palette list the instance carries
(the source assigns the static calmingColorPalettes; the test suite reassigns
the field to exercise other sizes). -/
def mkState (palettes : List Palette) : BgState :=
  { palettes := palettes
    lastPaletteIndex := -1
    baseTransitionDuration := 45000
    transitionDuration := 45000
    timeoutId := none
    lastCycleTime := none
    painted := [] }

/-- Method getRandomPalette of the non-repeating revision.  The stream of
values Math.floor(Math.random() multiplied by the length) would produce for
this call is supplied as `draws`; the do-while loop consumes draws until one
differs from lastPaletteIndex, so the result is `none` exactly when the loop
would never terminate on that stream.  An empty list yields the fallback and
a one-entry list yields that entry without drawing. -/
def getRandomPalette (s : BgState) (draws : List Nat) :
    Option ((Option Int × Palette) × BgState) :=
  if s.palettes.length = 0 then some ((none, defaultPalette), s)
  else if s.palettes.length = 1 then
    some ((some 0, s.palettes.headD defaultPalette), s)
  else
    match draws.find? (fun i => Int.ofNat i != s.lastPaletteIndex) with
    | some i =>
        some ((some (Int.ofNat i), s.palettes.getD i defaultPalette),
              { s with lastPaletteIndex := Int.ofNat i })
    | none => none

/-- Method getRandomPalette of the earlier simple revision kept in
src/BackgroundController.js: a single draw indexes the list directly and no
last index is tracked, so an immediate repeat is possible. -/
def getRandomPaletteSimple (s : BgState) (draw : Nat) : Palette :=
  s.palettes.getD draw defaultPalette

/-- Method applyColor: writes the color to the element style (recorded in the
paint trace). -/
def applyColor (s : BgState) (idx : Option Int) (p : Palette) : BgState :=
  { s with painted := s.painted ++ [{ idx := idx, palette := p }] }

/-- Method cycleColor: picks a palette, paints it, records the cycle start
time and schedules the next cycle after the current transition duration. -/
def cycleColor (s : BgState) (draws : List Nat) (now : ℚ) : Option BgState :=
  match getRandomPalette s draws with
  | none => none
  | some ((idx, p), s₁) =>
      let s₂ := applyColor s₁ idx p
      some { s₂ with lastCycleTime := some now, timeoutId := some s₂.transitionDuration }

/-- A run of the cycler: each list element carries the draw stream and the
clock value of one cycle. -/
def runCycles (s : BgState) : List (List Nat × ℚ) → Option BgState
  | [] => some s
  | (draws, now) :: rest =>
      match cycleColor s draws now with
      | none => none
      | some s₁ => runCycles s₁ rest

/-- Method setSpeed of the non-repeating revision: non-positive factors warn
and change nothing; otherwise the duration becomes base divided by the
factor, any pending timer is cleared, and a timer is scheduled for the new
duration minus the time elapsed since the cycle started, clamped at zero. -/
def setSpeed (s : BgState) (speedFactor now : ℚ) : BgState :=
  if speedFactor ≤ 0 then s
  else
    let elapsed := now - s.lastCycleTime.getD now
    let newDuration := s.baseTransitionDuration / speedFactor
    let remaining := max 0 (newDuration - elapsed)
    { s with transitionDuration := newDuration, timeoutId := some remaining }

/-- Modelled from the claim wording, for comparison with the source: the
proportionally scaled remaining time of the interval that was running when
setSpeed was called, that is the old remaining time rescaled by the ratio of
the new duration to the old one. -/
def proportionalRemaining (s : BgState) (speedFactor now : ℚ) : ℚ :=
  let elapsed := now - s.lastCycleTime.getD now
  let newDuration := s.baseTransitionDuration / speedFactor
  (s.transitionDuration - elapsed) * (newDuration / s.transitionDuration)

/-- Successive painted indices differ, threaded from a starting last index:
every paint carries an index and that index differs from the previous one. -/
def ChainIdx : Int → List (Option Int) → Prop
  | _, [] => True
  | last, some i :: rest => i ≠ last ∧ ChainIdx i rest
  | _, none :: _ => False

/-- A state in the middle of a cycle: the first cycle ran at clock 0, so a
45000 ms timer is pending and the cycle start time is recorded. -/
def bgMidCycleState : BgState :=
  (cycleColor (mkState calmingColorPalettes) [0] 0).getD (mkState calmingColorPalettes)

end BackgroundController

namespace AudioController

/-- Liveness over all prefixes follows from liveness over the prefixes up to
the trace length, since longer takes saturate. -/
theorem atMostOneLiveThroughout_of_bounded (events : List AudioEvent)
    (h : ∀ n, n ≤ events.length → (liveIds (events.take n)).length ≤ 1) :
    atMostOneLiveThroughout events := by
  intro n
  rcases le_or_lt n events.length with hn | hn
  · exact h n hn
  · rw [List.take_of_length_le (le_of_lt hn)]
    simpa using h events.length le_rfl

end AudioController

namespace BackgroundController

theorem chainIdx_chain' : ∀ (l : List (Option Int)) (last : Int),
    ChainIdx last l → List.Chain' (fun a b => a ≠ b) l := by
  intro l
  induction l with
  | nil => intro last _; simp
  | cons a l ih =>
    intro last h
    cases a with
    | none => exact absurd h (by simp [ChainIdx])
    | some i =>
      obtain ⟨hne, hrest⟩ := h
      rw [List.chain'_cons']
      refine ⟨?_, ih i hrest⟩
      intro b hb
      cases l with
      | nil => simp at hb
      | cons c l' =>
        simp at hb
        subst hb
        cases c with
        | none => exact absurd hrest (by simp [ChainIdx])
        | some j =>
          obtain ⟨hji, _⟩ := hrest
          intro hc
          exact hji (Option.some.inj hc).symm

/-- One successful cycle paints exactly one entry; with more than one palette
entry the painted index differs from the stored last index and replaces it;
with exactly one entry the head entry is painted at index 0. -/
theorem cycleColor_step (s : BgState) (draws : List Nat) (now : ℚ) (s₁ : BgState)
    (h : cycleColor s draws now = some s₁) :
    ∃ pa : Paint,
      s₁.painted = s.painted ++ [pa] ∧
      s₁.palettes = s.palettes ∧
      (1 < s.palettes.length →
        ∃ i : Int, pa.idx = some i ∧ i ≠ s.lastPaletteIndex ∧ s₁.lastPaletteIndex = i) ∧
      (s.palettes.length = 1 →
        pa = { idx := some 0, palette := s.palettes.headD defaultPalette } ∧
        s₁.lastPaletteIndex = s.lastPaletteIndex) := by
  unfold cycleColor getRandomPalette at h
  by_cases h0 : s.palettes.length = 0
  · rw [if_pos h0] at h
    simp only [applyColor] at h
    injection h with h
    subst h
    refine ⟨{ idx := none, palette := defaultPalette }, by simp [applyColor], rfl, ?_, ?_⟩
    · intro hlt; omega
    · intro h1; omega
  · by_cases h1 : s.palettes.length = 1
    · rw [if_neg h0, if_pos h1] at h
      simp only [applyColor] at h
      injection h with h
      subst h
      exact ⟨{ idx := some 0, palette := s.palettes.headD defaultPalette },
        by simp [applyColor], rfl, fun hlt => by omega, fun _ => ⟨rfl, rfl⟩⟩
    · rw [if_neg h0, if_neg h1] at h
      cases hf : draws.find? (fun i => Int.ofNat i != s.lastPaletteIndex) with
      | none => rw [hf] at h; exact absurd h (by simp)
      | some i =>
        rw [hf] at h
        simp only [applyColor] at h
        injection h with h
        subst h
        refine ⟨{ idx := some (Int.ofNat i), palette := s.palettes.getD i defaultPalette },
          by simp [applyColor], rfl, ?_, ?_⟩
        · intro _
          refine ⟨Int.ofNat i, rfl, ?_, rfl⟩
          have := List.find?_some hf
          simpa using this
        · intro hc; omega

/-- A successful run appends one paint per cycle, keeps the palette list, and
threads the no-immediate-repeat chain of indices when the list has more than
one entry; with exactly one entry every appended paint is that entry. -/
theorem runCycles_trace (inputs : List (List Nat × ℚ)) :
    ∀ (s s' : BgState), runCycles s inputs = some s' →
    ∃ tail : List Paint,
      s'.painted = s.painted ++ tail ∧
      tail.length = inputs.length ∧
      s'.palettes = s.palettes ∧
      (1 < s.palettes.length → ChainIdx s.lastPaletteIndex (tail.map Paint.idx)) ∧
      (s.palettes.length = 1 →
        ∀ pa ∈ tail, pa = { idx := some 0, palette := s.palettes.headD defaultPalette }) := by
  induction inputs with
  | nil =>
    intro s s' h
    simp only [runCycles, Option.some.injEq] at h
    subst h
    exact ⟨[], by simp, rfl, rfl, fun _ => trivial, by simp⟩
  | cons p rest ih =>
    obtain ⟨draws, now⟩ := p
    intro s s' h
    simp only [runCycles] at h
    cases hcc : cycleColor s draws now with
    | none => rw [hcc] at h; exact absurd h (by simp)
    | some s₁ =>
      rw [hcc] at h
      obtain ⟨tail₁, hp, hlen, hpal, hchain, hsingle⟩ := ih s₁ s' h
      obtain ⟨pa, hp1, hpal1, hgt, heq1⟩ := cycleColor_step s draws now s₁ hcc
      refine ⟨pa :: tail₁, ?_, by simp [hlen], by rw [hpal, hpal1], ?_, ?_⟩
      · rw [hp, hp1]; simp
      · intro hlt
        have hlt1 : 1 < s₁.palettes.length := by rw [hpal1]; exact hlt
        obtain ⟨i, hidx, hne, hlast⟩ := hgt hlt
        rw [List.map_cons, hidx]
        rw [hlast] at hchain
        exact ⟨hne, hchain hlt1⟩
      · intro hone
        obtain ⟨hpa, _⟩ := heq1 hone
        intro pb hpb
        rcases List.mem_cons.mp hpb with rfl | hpb
        · exact hpa
        · rw [hpal1] at hsingle
          exact hsingle hone pb hpb

end BackgroundController

section AudioScratch

open AudioController

example : readyState.audioContext = true := by decide

example : readyState.soundBuffers = ["Rain", "Ocean Waves", "Forest", "White Noise"] := by
  decide

example : (afterTwoPlays "Rain" "Forest").events =
    [AudioEvent.createVoice 0 "Rain", AudioEvent.startVoice 0,
     AudioEvent.stopVoice 0, AudioEvent.disconnectVoice 0,
     AudioEvent.createVoice 1 "Forest", AudioEvent.startVoice 1] := by decide

example : liveIds (afterTwoPlays "Rain" "Forest").events = [1] := by decide

end AudioScratch

section BgScratch

open BackgroundController

example :
    (runCycles (mkState calmingColorPalettes) [([0], 0), ([0, 1], 45000)]).map
      (fun s => s.painted.map Paint.idx) = some [some 0, some 1] := by decide

example :
    (cycleColor (mkState [{ name := "Single", color := "#111111" }]) [] 0).map
      (fun s => s.painted) =
    some [{ idx := some 0, palette := { name := "Single", color := "#111111" } }] := by
  decide

end BgScratch

section ClaimTheorems

open AudioController SettingsController BackgroundController

/-- C1: playing nameA and then nameB from the ready engine without a pause in
between leaves exactly one live voice, the one created for nameB, which is
current, playing and selected; the voice created for nameA received exactly
one stop and exactly one disconnect; and after every prefix of the event
trace at most one voice is live. -/
theorem play_switch_tears_down_old_voice (nameA nameB : String)
    (hA : nameA ∈ soundNames) (hB : nameB ∈ soundNames) :
    liveIds (afterTwoPlays nameA nameB).events = [1] ∧
    voiceSound (afterTwoPlays nameA nameB).events 1 = some nameB ∧
    (afterTwoPlays nameA nameB).currentSourceNode = some 1 ∧
    (afterTwoPlays nameA nameB).isPlaying = true ∧
    (afterTwoPlays nameA nameB).selectedSound = some nameB ∧
    voiceSound (afterTwoPlays nameA nameB).events 0 = some nameA ∧
    stopCount (afterTwoPlays nameA nameB).events 0 = 1 ∧
    disconnectCount (afterTwoPlays nameA nameB).events 0 = 1 ∧
    atMostOneLiveThroughout (afterTwoPlays nameA nameB).events := by
  rw [show soundNames = ["Rain", "Ocean Waves", "Forest", "White Noise"] from rfl] at hA hB
  fin_cases hA <;> fin_cases hB <;>
    exact ⟨by decide, by decide, by decide, by decide, by decide, by decide, by decide,
      by decide, atMostOneLiveThroughout_of_bounded _ (by decide)⟩

theorem play_switch_tears_down_old_voice_witness :
    liveIds (afterTwoPlays "Rain" "Ocean Waves").events = [1] ∧
    voiceSound (afterTwoPlays "Rain" "Ocean Waves").events 1 = some "Ocean Waves" ∧
    (afterTwoPlays "Rain" "Ocean Waves").currentSourceNode = some 1 ∧
    (afterTwoPlays "Rain" "Ocean Waves").isPlaying = true ∧
    (afterTwoPlays "Rain" "Ocean Waves").selectedSound = some "Ocean Waves" ∧
    voiceSound (afterTwoPlays "Rain" "Ocean Waves").events 0 = some "Rain" ∧
    stopCount (afterTwoPlays "Rain" "Ocean Waves").events 0 = 1 ∧
    disconnectCount (afterTwoPlays "Rain" "Ocean Waves").events 0 = 1 ∧
    atMostOneLiveThroughout (afterTwoPlays "Rain" "Ocean Waves").events :=
  play_switch_tears_down_old_voice "Rain" "Ocean Waves" (by decide) (by decide)

end ClaimTheorems

section ClaimTheorems2

open AudioController SettingsController BackgroundController

/-- C2, counterexample to the claim as stated: after play Rain and pause, the
snapshot property selectedSound is undefined (the snapshot exposes the
selection under the key currentSound), so the claimed conjunction fails at
the concrete input Rain. -/
theorem getState_selectedSound_key_counterexample :
    ¬ ((getState rainPausedState).get "isPlaying" = JsValue.bool false ∧
       (getState rainPausedState).get "selectedSound" = JsValue.str "Rain") := by
  decide

/-- C2 as amended: after a successful play of a catalog sound followed by
pause, the snapshot reports isPlaying false and remembers the selection under
its currentSound key. -/
theorem getState_after_pause_currentSound (name : String) (h : name ∈ soundNames) :
    (getState (pause (play envAllOk readyState name).1)).get "isPlaying" =
      JsValue.bool false ∧
    (getState (pause (play envAllOk readyState name).1)).get "currentSound" =
      JsValue.str name := by
  rw [show soundNames = ["Rain", "Ocean Waves", "Forest", "White Noise"] from rfl] at h
  fin_cases h <;> exact ⟨by decide, by decide⟩

theorem getState_after_pause_currentSound_witness :
    (getState (pause (play envAllOk readyState "Forest").1)).get "isPlaying" =
      JsValue.bool false ∧
    (getState (pause (play envAllOk readyState "Forest").1)).get "currentSound" =
      JsValue.str "Forest" :=
  getState_after_pause_currentSound "Forest" (by decide)

/-- C3: setVolume stores exactly the clamp of its argument to the unit
interval (1.5 stores 1, -0.5 stores 0, 0.5 stores 0.5), returns no error by
type, and when the gain stage does not exist the value is still stored while
everything else, the audio graph included, is untouched. -/
theorem setVolume_clamps_and_stores :
    (∀ (s : AudioState) (v : ℚ), (setVolume s v).volume = max 0 (min 1 v)) ∧
    ((setVolume initial (3 / 2)).volume = 1 ∧
     (setVolume initial (-(1 / 2))).volume = 0 ∧
     (setVolume initial (1 / 2)).volume = 1 / 2) ∧
    (∀ (s : AudioState) (v : ℚ), s.gainNode = none →
      setVolume s v = { s with volume := max 0 (min 1 v) }) := by
  refine ⟨fun s v => rfl, ⟨?_, ?_, ?_⟩, ?_⟩
  · simp only [setVolume]; norm_num
  · simp only [setVolume]; norm_num
  · simp only [setVolume]; norm_num
  · intro s v h
    cases s
    simp only at h
    subst h
    rfl

theorem setVolume_clamps_and_stores_witness :
    setVolume initial 5 = { initial with volume := max 0 (min 1 5) } :=
  setVolume_clamps_and_stores.2.2 initial 5 rfl

/-- C4: when the engine is initialised, the name is not cached, and the fetch
of the URL resolves with a non-OK response, loadSound rejects with the
fetch-failure error for that sound and the cache is unchanged, so it still
has no entry for the name. -/
theorem loadSound_fetch_failure_cache_unchanged (env : AudioEnv) (s : AudioState)
    (name url : String)
    (hctx : s.audioContext = true)
    (hmiss : name ∉ s.soundBuffers)
    (hfetch : env.fetch url = FetchOutcome.httpError) :
    loadSound env s name url =
      ({ s with isLoading := false }, Except.error (AudioError.fetchFailed name)) ∧
    (loadSound env s name url).1.soundBuffers = s.soundBuffers ∧
    name ∉ (loadSound env s name url).1.soundBuffers := by
  refine ⟨?_, ?_, ?_⟩ <;> simp [loadSound, loadSoundCore, hctx, hmiss, hfetch]

theorem loadSound_fetch_failure_cache_unchanged_witness :
    loadSound { ctxOk := true, fetch := fun _ => FetchOutcome.httpError } readyState
        "Nocturne" "/audio/nocturne.mp3" =
      ({ readyState with isLoading := false },
        Except.error (AudioError.fetchFailed "Nocturne")) ∧
    (loadSound { ctxOk := true, fetch := fun _ => FetchOutcome.httpError } readyState
        "Nocturne" "/audio/nocturne.mp3").1.soundBuffers = readyState.soundBuffers ∧
    "Nocturne" ∉ (loadSound { ctxOk := true, fetch := fun _ => FetchOutcome.httpError }
        readyState "Nocturne" "/audio/nocturne.mp3").1.soundBuffers :=
  loadSound_fetch_failure_cache_unchanged _ _ _ _ (by decide) (by decide) rfl

/-- C5: every failing execution of init returns the state it was given, which
is still uninitialised (no audio context retained, so a later init retries
from scratch), and the surfaced error is the audio-system-unavailable one. -/
theorem init_failure_leaves_uninitialized (env : AudioEnv) (s s' : AudioState)
    (e : AudioError) (h : init env s = (s', Except.error e)) :
    s' = s ∧ s'.audioContext = false ∧ e = AudioError.audioSystemUnavailable := by
  unfold init at h
  by_cases hc : s.audioContext = true
  · simp [hc] at h
  · by_cases he : env.ctxOk = true
    · simp [hc, he] at h
    · simp [hc, he] at h
      obtain ⟨h1, h2⟩ := h
      subst h1 h2
      exact ⟨rfl, by simpa using hc, rfl⟩

theorem init_failure_leaves_uninitialized_witness :
    initial = initial ∧ initial.audioContext = false ∧
    AudioError.audioSystemUnavailable = AudioError.audioSystemUnavailable :=
  init_failure_leaves_uninitialized envNoCtx initial initial
    AudioError.audioSystemUnavailable rfl

/-- C6: resume with no selection recorded is a no-op on any state; resume
after playing Rain and pausing replays Rain from the beginning on a fresh
voice, so the engine is playing with Rain selected again. -/
theorem resume_noop_and_replay :
    (∀ (env : AudioEnv) (s : AudioState), s.selectedSound = none → resume env s = s) ∧
    ((resume envAllOk rainPausedState).isPlaying = true ∧
     (resume envAllOk rainPausedState).selectedSound = some "Rain" ∧
     (resume envAllOk rainPausedState).currentSourceNode = some 1 ∧
     voiceSound (resume envAllOk rainPausedState).events 1 = some "Rain") := by
  constructor
  · intro env s h
    unfold resume
    rw [h]
    cases s.isPlaying <;> rfl
  · exact ⟨by decide, by decide, by decide, by decide⟩

theorem resume_noop_and_replay_witness : resume envAllOk initial = initial :=
  resume_noop_and_replay.1 envAllOk initial rfl

/-- C10: playing a name that is neither cached nor in the catalog while the
initialised engine is playing returns without rejecting and leaves the whole
state unchanged, so the active voice, the flags, the selection, the volume
and the cache are untouched. -/
theorem play_unknown_sound_frame (env : AudioEnv) (s : AudioState) (name : String)
    (hctx : s.audioContext = true)
    (_hplaying : s.isPlaying = true)
    (hmiss : name ∉ s.soundBuffers)
    (hcat : name ∉ soundNames) :
    play env s name = (s, Except.ok ()) := by
  have hfind : soundSources.find? (fun src => src.name == name) = none := by
    rw [List.find?_eq_none]
    intro src hsrc
    simp only [beq_iff_eq]
    intro hn
    exact hcat (hn ▸ List.mem_map_of_mem (fun s => s.name) hsrc)
  simp [play, playCore, hctx, hmiss, hfind]

theorem play_unknown_sound_frame_witness :
    play envAllOk (play envAllOk readyState "Rain").1 "Nocturne" =
      ((play envAllOk readyState "Rain").1, Except.ok ()) :=
  play_unknown_sound_frame envAllOk (play envAllOk readyState "Rain").1 "Nocturne"
    (by decide) (by decide) (by decide) (by decide)

end ClaimTheorems2

section ClaimTheorems3

open AudioController SettingsController BackgroundController

/-- C7: on the validating settings store, a volume write outside the unit
interval is rejected with no mutation and no persistence write; a volume
write inside it mutates in memory and persists synchronously; an empty or
non-string selected-sound write is rejected with no mutation; and a write to
a key not in the record is rejected with no mutation. -/
theorem settings_set_validation :
    (∀ (s : SettingsState) (q : ℚ), q < 0 ∨ 1 < q →
      SettingsController.set s "volume" (SValue.num q) = s) ∧
    (∀ (s : SettingsState) (q : ℚ), 0 ≤ q → q ≤ 1 → "volume" ∈ keysOf s.settings →
      (SettingsController.set s "volume" (SValue.num q)).settings =
        setKey s.settings "volume" (SValue.num q) ∧
      (SettingsController.set s "volume" (SValue.num q)).stored =
        some (setKey s.settings "volume" (SValue.num q)) ∧
      (SettingsController.set s "volume" (SValue.num q)).saveCount = s.saveCount + 1) ∧
    (∀ (s : SettingsState) (v : SValue),
      v = SValue.str "" ∨ (∀ str : String, v ≠ SValue.str str) →
      SettingsController.set s "selectedSound" v = s) ∧
    (∀ (s : SettingsState) (key : String) (v : SValue), key ∉ keysOf s.settings →
      SettingsController.set s key v = s) := by
  refine ⟨?_, ?_, ?_, ?_⟩
  · intro s q h
    have hv : volumeInvalid (SValue.num q) = true := by
      rcases h with h | h <;> simp [volumeInvalid, h]
    simp [SettingsController.set, hv]
  · intro s q h0 h1 hk
    have hv : volumeInvalid (SValue.num q) = false := by
      simp [volumeInvalid, not_lt.mpr h0, not_lt.mpr h1]
    simp [SettingsController.set, hv, hk, saveSettings]
  · intro s v h
    have hv : selectedSoundInvalid v = true := by
      rcases h with rfl | h
      · simp [selectedSoundInvalid]
      · cases v <;> simp [selectedSoundInvalid]
        exact absurd rfl (h _)
    simp [SettingsController.set, hv]
  · intro s key v hk
    unfold SettingsController.set
    split
    · rfl
    · split
      · rfl
      · simp [hk]

theorem settings_set_validation_witness :
    SettingsController.set initialState "volume" (SValue.num 5) = initialState ∧
    (SettingsController.set initialState "volume" (SValue.num (1 / 5))).settings =
      setKey initialState.settings "volume" (SValue.num (1 / 5)) ∧
    (SettingsController.set initialState "volume" (SValue.num (1 / 5))).stored =
      some (setKey initialState.settings "volume" (SValue.num (1 / 5))) ∧
    (SettingsController.set initialState "volume" (SValue.num (1 / 5))).saveCount =
      initialState.saveCount + 1 :=
  ⟨settings_set_validation.1 initialState 5 (Or.inr (by norm_num)),
   settings_set_validation.2.1 initialState (1 / 5) (by norm_num) (by norm_num) (by decide)⟩

/-- C8: in every terminating run of the non-repeating cycler from a fresh
instance, each cycle paints exactly once; with more than one palette entry no
two consecutive paints use the same palette index, whatever the random draws
were; with exactly one entry every paint is that entry at index 0. -/
theorem cycler_no_consecutive_repeat (palettes : List Palette)
    (inputs : List (List Nat × ℚ)) (s' : BgState)
    (h : runCycles (mkState palettes) inputs = some s') :
    s'.painted.length = inputs.length ∧
    (1 < palettes.length →
      List.Chain' (fun a b => a ≠ b) (s'.painted.map Paint.idx)) ∧
    (palettes.length = 1 →
      ∀ pa ∈ s'.painted,
        pa.palette = palettes.headD defaultPalette ∧ pa.idx = some 0) := by
  obtain ⟨tail, hp, hlen, _, hchain, hsingle⟩ :=
    runCycles_trace inputs (mkState palettes) s' h
  have hp' : s'.painted = tail := by simpa [mkState] using hp
  refine ⟨by rw [hp', hlen], ?_, ?_⟩
  · intro hlt
    rw [hp']
    exact chainIdx_chain' _ _ (hchain hlt)
  · intro hone pa hpa
    rw [hp'] at hpa
    have := hsingle hone pa hpa
    rw [this]
    exact ⟨rfl, rfl⟩

/-- Witness run for C8: two cycles over the twelve-entry palette, where the
second cycle needed a retry because its first draw repeated the last index. -/
theorem cycler_no_consecutive_repeat_witness :
    ((runCycles (mkState calmingColorPalettes) [([0], 0), ([0, 1], 45000)]).getD
        (mkState calmingColorPalettes)).painted.length = [([0], 0), ([0, 1], 45000)].length ∧
    (1 < calmingColorPalettes.length →
      List.Chain' (fun a b => a ≠ b)
        (((runCycles (mkState calmingColorPalettes) [([0], 0), ([0, 1], 45000)]).getD
          (mkState calmingColorPalettes)).painted.map Paint.idx)) ∧
    (calmingColorPalettes.length = 1 →
      ∀ pa ∈ ((runCycles (mkState calmingColorPalettes) [([0], 0), ([0, 1], 45000)]).getD
          (mkState calmingColorPalettes)).painted,
        pa.palette = calmingColorPalettes.headD defaultPalette ∧ pa.idx = some 0) :=
  cycler_no_consecutive_repeat calmingColorPalettes [([0], 0), ([0, 1], 45000)]
    ((runCycles (mkState calmingColorPalettes) [([0], 0), ([0, 1], 45000)]).getD
      (mkState calmingColorPalettes)) rfl

/-- C9, counterexample to the claim as stated: 10000 ms into a 45000 ms cycle,
setSpeed with factor 2 schedules max(0, 22500 - 10000) = 12500 ms, while the
proportionally scaled remaining time of the current interval would be
(45000 - 10000) times 22500 / 45000 = 17500 ms. -/
theorem setSpeed_not_proportional_counterexample :
    (setSpeed bgMidCycleState 2 10000).timeoutId = some 12500 ∧
    proportionalRemaining bgMidCycleState 2 10000 = 17500 ∧
    (setSpeed bgMidCycleState 2 10000).timeoutId ≠
      some (proportionalRemaining bgMidCycleState 2 10000) := by
  have hbase : bgMidCycleState.baseTransitionDuration = 45000 := rfl
  have hdur : bgMidCycleState.transitionDuration = 45000 := rfl
  have hlast : bgMidCycleState.lastCycleTime = some 0 := rfl
  have h1 : (setSpeed bgMidCycleState 2 10000).timeoutId = some 12500 := by
    simp only [setSpeed, hbase, hlast]
    rw [if_neg (by norm_num : ¬(2 : ℚ) ≤ 0)]
    simp only [Option.getD_some]
    norm_num
  have h2 : proportionalRemaining bgMidCycleState 2 10000 = 17500 := by
    simp only [proportionalRemaining, hbase, hdur, hlast, Option.getD_some]
    norm_num
  refine ⟨h1, h2, ?_⟩
  rw [h1, h2]
  intro hc
  exact absurd (Option.some.inj hc) (by norm_num)

/-- C9 as amended: non-positive factors change nothing; a positive factor sets
the duration to base divided by the factor and schedules the next cycle for
the new duration minus the time already elapsed in the current cycle, clamped
at zero (not the proportionally scaled old remainder, and not a restart of
the full new interval). -/
theorem setSpeed_rescheduling (s : BgState) (f now : ℚ) :
    (f ≤ 0 → setSpeed s f now = s) ∧
    (0 < f →
      (setSpeed s f now).transitionDuration = s.baseTransitionDuration / f ∧
      (setSpeed s f now).timeoutId =
        some (max 0 (s.baseTransitionDuration / f - (now - s.lastCycleTime.getD now)))) := by
  constructor
  · intro h
    simp [setSpeed, h]
  · intro h
    have h' : ¬ f ≤ 0 := not_le.mpr h
    simp [setSpeed, h']

theorem setSpeed_rescheduling_witness :
    setSpeed (mkState calmingColorPalettes) (-1) 0 = mkState calmingColorPalettes ∧
    (setSpeed bgMidCycleState 2 10000).transitionDuration =
      bgMidCycleState.baseTransitionDuration / 2 :=
  ⟨(setSpeed_rescheduling (mkState calmingColorPalettes) (-1) 0).1 (by norm_num),
   ((setSpeed_rescheduling bgMidCycleState 2 10000).2 (by norm_num)).1⟩

end ClaimTheorems3
